import Mathlib

/-!
Verification of the otterhound webhook/activation service against its
specification.  The definitions below are shallow embeddings of the three
source files:

* `src/main.rs`  — inbound push listener: Stripe-Signature verification
  (header parsing, HMAC comparison loop), timestamp staleness check, JSON
  body parse, HTTP response mapping and fire-and-forget spawn.
* `src/lib.rs`   — `Otterhound::handle_event`: the subscription activation
  database transaction (conditional UPDATE with RETURNING, INSERT, COMMIT,
  ROLLBACK on every error path).
* `src/dev_poll.rs` — the polling fallback loop maintaining the `last_ts`
  cursor.

Bytes are modelled as `Nat` (values < 256 where relevant), raw strings as
`List Char`, and the HMAC-SHA256 primitive as an abstract function
parameter: the code calls the `hmac`/`sha2` crates, and no claim depends on
the internals of the digest, only on how its output is compared.
-/

/-- Raw byte-string data (header values, request bodies) as character lists. -/
abbrev Str := List Char

/-! ## Hex decoding (the `hex::decode` call in `main.rs`) -/

/-- Value of a single hex digit, `none` on a non-hex character
(mirrors `hex` crate digit handling: `0-9`, `a-f`, `A-F`). -/
def hexVal (c : Char) : Option Nat :=
  if '0' ≤ c ∧ c ≤ '9' then some (c.toNat - '0'.toNat)
  else if 'a' ≤ c ∧ c ≤ 'f' then some (c.toNat - 'a'.toNat + 10)
  else if 'A' ≤ c ∧ c ≤ 'F' then some (c.toNat - 'A'.toNat + 10)
  else none

/-- `hex::decode`: pairs of hex digits to bytes; fails on odd length or a
non-hex character. -/
def hexDecode : Str → Option (List Nat)
  | [] => some []
  | [_] => none
  | c1 :: c2 :: rest =>
    match hexVal c1, hexVal c2, hexDecode rest with
    | some h, some l, some bs => some ((h * 16 + l) :: bs)
    | _, _, _ => none

/-! ## Stripe-Signature header parsing (`main.rs` lines 20–41) -/

/-- Rust `str::split(sep)`: always yields at least one (possibly empty)
piece; empty input yields one empty piece. -/
def splitList (sep : Char) : Str → List Str
  | [] => [[]]
  | c :: cs =>
    match splitList sep cs with
    | [] => [[]]
    | g :: gs => if c = sep then [] :: g :: gs else (c :: g) :: gs

/-- One iteration of the `for_each` over `key=value` pairs: a `t` pair
(re)sets the timestamp — to `none` when the pair has no value — and a
`v1` pair with a value is appended to the signature list. -/
def scanPair (st : Option Str × List Str) (pair : Str) : Option Str × List Str :=
  let parts := splitList '=' pair
  let key := parts.headD []
  if key = "t".data then (parts.get? 1, st.2)
  else if key = "v1".data then
    match parts.get? 1 with
    | some v => (st.1, st.2 ++ [v])
    | none => st
  else st

/-- Parse the raw header value into (timestamp?, v1 signatures), exactly as
the `split(',')`/`split("=")` loop does. -/
def parseHeader (h : Str) : Option Str × List Str :=
  (splitList ',' h).foldl scanPair (none, [])

/-! ## The signature comparison loop (`main.rs` lines 63–78)

For each supplied `v1` value the code hex-decodes it (skipping, with a log
line, values that fail to decode) and then builds
`GenericArray::<u8, U32>::clone_from_slice(&sig)`, which PANICS when the
decoded slice is not exactly 32 bytes; only then is the constant-time
comparison against the expected MAC performed. -/

inductive SigOutcome
  | matched
  | unmatched
  | panicked
deriving DecidableEq, Repr

/-- The `for sig in signatures` loop. -/
def check_sigs (expected : List Nat) : List Str → SigOutcome
  | [] => .unmatched
  | s :: rest =>
    match hexDecode s with
    | none => check_sigs expected rest
    | some bytes =>
      if bytes.length = 32 then
        if bytes = expected then .matched else check_sigs expected rest
      else .panicked

inductive VerifyResult
  | accepted (timestamp : Str) (body : Str)
  | rejected (msg : String)
  | panicked
deriving DecidableEq, Repr

/-- The verification stage of `handle_request` (`main.rs` lines 16–79):
header presence, header parsing, `signed_payload = t ++ "." ++ body`,
HMAC computation (abstract `mac`), and the signature loop.  `header = none`
models an absent `Stripe-Signature` header. -/
def verify (mac : Str → Str → List Nat) (secret : Str)
    (header : Option Str) (body : Str) : VerifyResult :=
  match header with
  | none => .rejected "Missing Signature"
  | some h =>
    let parsed := parseHeader h
    match parsed.1 with
    | none => .rejected "Missing timestamp"
    | some ts =>
      let signed_payload := ts ++ '.' :: body
      let expected := mac secret signed_payload
      match check_sigs expected parsed.2 with
      | .matched => .accepted ts body
      | .unmatched => .rejected "Signature validation failed"
      | .panicked => .panicked

/-! ## Staleness check, body parse and response (`main.rs` lines 82–116) -/

/-- `MAX_TIME_DIFF`: 5 minutes in seconds. -/
def MAX_TIME_DIFF : Nat := 60 * 5

/-- `SystemTime::duration_since` applied both ways: the absolute difference
between `now` and the claimed timestamp. -/
def absDiff (a b : Nat) : Nat := max a b - min a b

/-- Rust `str::parse::<u64>()`: optional leading `+`, then at least one
digit, value below 2^64. -/
def parseU64 (s : Str) : Option Nat :=
  let digits := match s with
    | '+' :: rest => rest
    | other => other
  if digits ≠ [] ∧ digits.all Char.isDigit then
    let v := digits.foldl (fun acc c => acc * 10 + (c.toNat - '0'.toNat)) 0
    if v < 2 ^ 64 then some v else none
  else none

/-- An event as deserialized from the request body (`EventItem` in
`lib.rs`; the opaque `data.object` payload is not needed by any claim and
is not modelled). -/
structure EventItem where
  created : Nat
  type_ : String
deriving DecidableEq, Repr

inductive PipeResult
  | ok (evt : EventItem)
  | err (msg : String)
  | panicked
deriving DecidableEq, Repr

/-- The continuation of `handle_request` after a successful signature check
(`main.rs` lines 82–98): parse the timestamp, convert it to a `SystemTime`,
reject when it is more than `MAX_TIME_DIFF` from the current time, then
parse the JSON body (abstract `parseEvent`, standing for
`serde_json::from_slice`).  The conversion
`UNIX_EPOCH + Duration::from_secs(t)` PANICS for `t ≥ 2^63` (`tv_sec` is an
`i64` on 64-bit Unix, so the addition overflows), and this happens before
the staleness comparison; `parseU64` admits every `t < 2^64`, so the panic
case is reachable and is modelled explicitly. -/
def staleness_and_parse (parseEvent : Str → Option EventItem)
    (now : Nat) (ts : Str) (body : Str) : PipeResult :=
  match parseU64 ts with
  | none => .err "Failed to parse timestamp"
  | some t =>
    if 2 ^ 63 ≤ t then .panicked
    else if absDiff now t > MAX_TIME_DIFF then
      .err "Timestamp is too far from current time"
    else
      match parseEvent body with
      | none => .err "Failed to parse body"
      | some evt => .ok evt

/-- The full accept/reject pipeline of `handle_request` up to the point the
response is chosen. -/
def processDelivery (mac : Str → Str → List Nat)
    (parseEvent : Str → Option EventItem) (secret : Str) (now : Nat)
    (header : Option Str) (body : Str) : PipeResult :=
  match verify mac secret header body with
  | .accepted ts b => staleness_and_parse parseEvent now ts b
  | .rejected m => .err m
  | .panicked => .panicked

structure HttpResponse where
  status : Nat
  body : String
deriving DecidableEq, Repr

/-- Observable outcome of `handle_request`: an HTTP response together with
the detached unit of work spawned for the event (its eventual success or
failure given by the `outcome` oracle), or a panic that produces no
response at all. -/
inductive ReqOutcome
  | resp (r : HttpResponse) (spawned : List (EventItem × Bool))
  | panicked
deriving DecidableEq, Repr

/-- `handle_request` (`main.rs` lines 100–116): on acceptance `tokio::spawn`
the event processing and immediately answer `200` with an empty body; on
any error answer `500 Internal Server Error`. -/
def handle_request (mac : Str → Str → List Nat)
    (parseEvent : Str → Option EventItem) (outcome : EventItem → Bool)
    (secret : Str) (now : Nat) (header : Option Str) (body : Str) : ReqOutcome :=
  match processDelivery mac parseEvent secret now header body with
  | .ok evt => .resp ⟨200, ""⟩ [(evt, outcome evt)]
  | .err _ => .resp ⟨500, "Internal Server Error"⟩ []
  | .panicked => .panicked

/-- The HTTP response component of a request outcome, if any. -/
def respOf : ReqOutcome → Option HttpResponse
  | .resp r _ => some r
  | .panicked => none

/-! ## The activation transaction (`lib.rs` lines 111–151)

`handle_event` for a `checkout.session.completed` event, after parsing the
payload and fetching the `Subscription` detail, runs one database
transaction on a pooled connection:

  prepare UPDATE/INSERT → BEGIN → conditional UPDATE … RETURNING (first
  returned row, `None` ⇒ "Couldn't find the session") → INSERT → COMMIT,

with `or_else(|(err, conn)| conn.simple_query("ROLLBACK").then(|_| Err(err)))`
attached to everything from BEGIN onward: every failure there issues a
ROLLBACK whose own result is discarded, and the original error is returned.
The embedding makes the database state, the sequence of issued SQL commands
and the injected failures explicit.  Uncommitted effects are never visible:
an error path returns the pre-transaction state (the ROLLBACK discards the
transaction's writes). -/

structure CheckoutSessionRow where
  stripe_id : String
  completed : Bool
  user_id : Int
  tier_id : Int
deriving DecidableEq, Repr

structure UserSubscriptionRow where
  tier : Int
  user_id : Int
  start_timestamp : Nat
  end_timestamp : Nat
  stripe_subscription : String
deriving DecidableEq, Repr

structure DBState where
  sessions : List CheckoutSessionRow
  user_subscriptions : List UserSubscriptionRow
deriving DecidableEq, Repr

/-- The `Subscription` detail fetched from `/v1/subscriptions/<id>`. -/
structure Subscription where
  created : Nat
  current_period_end : Nat
deriving DecidableEq, Repr

/-- Which SQL commands a run of the transaction issues, in order. -/
inductive SqlCmd
  | prepare
  | beginTx
  | updateSession
  | insertSub
  | commitTx
  | rollbackTx
deriving DecidableEq, Repr

/-- Failure injection for the fallible database operations.  The code
discards the result of the ROLLBACK itself (`.then(|_| Err((err, conn)))`),
so `rollback_fails` is part of the model but, as in the source, can affect
nothing. -/
structure Fault where
  prepare_fails : Bool
  begin_fails : Bool
  update_fails : Bool
  insert_fails : Bool
  commit_fails : Bool
  rollback_fails : Bool
deriving DecidableEq, Repr

def noFault : Fault := ⟨false, false, false, false, false, false⟩

/-- The rows the conditional UPDATE's `WHERE stripe_id=$1 AND
completed=FALSE` predicate selects (and `RETURNING` returns). -/
def matchingRows (db : DBState) (sid : String) : List CheckoutSessionRow :=
  db.sessions.filter (fun r => r.stripe_id = sid ∧ r.completed = false)

/-- Effect of `UPDATE subscription_checkout_sessions SET completed=TRUE
WHERE stripe_id=$1 AND completed=FALSE` on the session table. -/
def applyUpdate (db : DBState) (sid : String) : DBState :=
  { db with
    sessions := db.sessions.map (fun r =>
      if r.stripe_id = sid ∧ r.completed = false then
        { r with completed := true }
      else r) }

/-- The row inserted into `user_subscriptions`, built from the first row
returned by the UPDATE: `(tier_id, user_id, sub.created,
sub.current_period_end, sub_id)`. -/
def insertedRow (sub : Subscription) (sub_id : String)
    (r : CheckoutSessionRow) : UserSubscriptionRow :=
  ⟨r.tier_id, r.user_id, sub.created, sub.current_period_end, sub_id⟩

/-- The `db_pool.run` closure of `handle_event` (`lib.rs` lines 111–151):
result, post-transaction database state, and the trace of SQL commands
issued.  Error messages are the `format!` prefixes from the source. -/
def run_checkout_tx (f : Fault) (session_id : String) (sub : Subscription)
    (sub_id : String) (db : DBState) :
    Except String Unit × DBState × List SqlCmd :=
  if f.prepare_fails then
    (.error "Failed to prepare queries", db, [.prepare])
  else if f.begin_fails then
    (.error "Failed to start transaction", db,
      [.prepare, .beginTx, .rollbackTx])
  else if f.update_fails then
    (.error "Failed to query for session", db,
      [.prepare, .beginTx, .updateSession, .rollbackTx])
  else
    match (matchingRows db session_id).head? with
    | none =>
      (.error "Couldn't find the session", db,
        [.prepare, .beginTx, .updateSession, .rollbackTx])
    | some row =>
      if f.insert_fails then
        (.error "Failed to add subscription", db,
          [.prepare, .beginTx, .updateSession, .insertSub, .rollbackTx])
      else if f.commit_fails then
        (.error "Failed to commit transaction", db,
          [.prepare, .beginTx, .updateSession, .insertSub, .commitTx,
            .rollbackTx])
      else
        (.ok (),
          { applyUpdate db session_id with
            user_subscriptions :=
              db.user_subscriptions ++ [insertedRow sub sub_id row] },
          [.prepare, .beginTx, .updateSession, .insertSub, .commitTx])

/-- `n` activation attempts for the same checkout session, serialized.  The
conditional UPDATE takes a row lock, so concurrent transactions touching
the same session row execute their UPDATEs in some serial order and the
blocked one re-evaluates `completed=FALSE` after the winner commits; any
interleaving of whole transactions is therefore equivalent to a serial
order, and since duplicate deliveries are identical the order itself is
irrelevant.  Returns the per-attempt results and the final state. -/
def run_attempts (sid : String) (sub : Subscription) (sub_id : String) :
    Nat → DBState → List (Except String Unit) × DBState
  | 0, db => ([], db)
  | n + 1, db =>
    let step := run_checkout_tx noFault sid sub sub_id db
    let rest := run_attempts sid sub sub_id n step.2.1
    (step.1 :: rest.1, rest.2)

/-! ## Poll cursor loop (`dev_poll.rs` lines 33–88)

The loop keeps `last_ts : Option u64`.  Each cycle fetches
`/v1/events?created[gt]=last_ts` (unfiltered when unset); on a decode or
transport failure the error is logged and nothing changes.  On a non-empty
batch, `new_last_ts = max created`, `last_ts` is replaced unconditionally,
and the items are spawned only when the previous cursor was set. -/

/-- `resp.data.iter().map(|item| item.created).max()`. -/
def batchMax : List EventItem → Option Nat
  | [] => none
  | e :: es =>
    match batchMax es with
    | none => some e.created
    | some m => some (max e.created m)

/-- One cycle of the poll loop: `result = none` models a request/decode
failure.  Returns the new cursor and the list of items dispatched
(spawned) this cycle. -/
def poll_cycle (cursor : Option Nat) (result : Option (List EventItem)) :
    Option Nat × List EventItem :=
  match result with
  | none => (cursor, [])
  | some batch =>
    match batchMax batch with
    | none => (cursor, [])
    | some m =>
      match cursor with
      | some _ => (some m, batch)
      | none => (some m, [])

/-- The cursor after a sequence of poll cycles. -/
def run_poll : Option Nat → List (Option (List EventItem)) → Option Nat
  | c, [] => c
  | c, r :: rs => run_poll (poll_cycle c r).1 rs

/-- A single cycle result honors the query filter `created[gt]=cursor`:
every returned event is strictly newer than the cursor the query was
issued with. -/
def honors (cursor : Option Nat) (result : Option (List EventItem)) : Prop :=
  ∀ batch, result = some batch → ∀ e ∈ batch,
    ∀ t, cursor = some t → t < e.created

/-- Every cycle of a trace honors the filter of the query that produced it. -/
def honorsTrace : Option Nat → List (Option (List EventItem)) → Prop
  | _, [] => True
  | c, r :: rs => honors c r ∧ honorsTrace (poll_cycle c r).1 rs

/-- All events surfaced by any successful cycle of a trace. -/
def eventsOf : List (Option (List EventItem)) → List EventItem
  | [] => []
  | none :: rs => eventsOf rs
  | some batch :: rs => batch ++ eventsOf rs

/-- Max of two optional timestamps. -/
def optMax : Option Nat → Option Nat → Option Nat
  | none, b => b
  | some a, none => some a
  | some a, some b => some (max a b)

/-- The maximum `created` value observed over all batches of a trace. -/
def observedMax : List (Option (List EventItem)) → Option Nat
  | [] => none
  | none :: rs => observedMax rs
  | some batch :: rs => optMax (batchMax batch) (observedMax rs)

/-- The poll cycle together with the spawned processing of each dispatched
item, whose success or failure is given by the `outcome` oracle; the code
only logs the outcome (`eprintln!`). -/
def poll_cycle_spawn (outcome : EventItem → Bool) (cursor : Option Nat)
    (result : Option (List EventItem)) :
    Option Nat × List (EventItem × Bool) :=
  let step := poll_cycle cursor result
  (step.1, step.2.map (fun e => (e, outcome e)))

/-- A fixed MAC function used to instantiate the abstract HMAC parameter in
concrete evaluations: every digest is 32 zero bytes. -/
def mac0 : Str → Str → List Nat := fun _ _ => List.replicate 32 0

/-- The hex spelling of `mac0`'s digest: 64 `'0'` characters. -/
def zeros64 : Str := List.replicate 64 '0'

/-- A header carrying a `v1` value that hex-decodes to `mac0`'s digest. -/
def goodHeader : Str := "t=5,v1=".data ++ zeros64

example : hexDecode "ab".data = some [171] := by decide
example : hexDecode "0f10".data = some [15, 16] := by decide
example : hexDecode "0g".data = none := by decide
example : hexDecode "abc".data = none := by decide
example : parseHeader "t=5,v1=ab,v1=cd".data = (some "5".data, ["ab".data, "cd".data]) := by decide
example : parseHeader "v1=ab,t".data = (none, ["ab".data]) := by decide
example : parseHeader "t=1,t=2".data = (some "2".data, []) := by decide
example : parseU64 "123".data = some 123 := by decide
example : parseU64 "".data = none := by decide
example : parseU64 "+7".data = some 7 := by decide
example : hexDecode zeros64 = some (List.replicate 32 0) := by decide
example : parseHeader goodHeader = (some "5".data, [zeros64]) := by decide

/-! ## Lemmas about the signature loop -/

theorem check_sigs_matched_of_mem (expected : List Nat) (sigs : List Str)
    (hlen : ∀ s ∈ sigs, ∀ bs, hexDecode s = some bs → bs.length = 32)
    (hmem : ∃ s ∈ sigs, hexDecode s = some expected) :
    check_sigs expected sigs = .matched := by
  induction sigs with
  | nil => obtain ⟨s, hs, _⟩ := hmem; exact absurd hs (List.not_mem_nil s)
  | cons a rest ih =>
    obtain ⟨s, hs, hdec⟩ := hmem
    have hrest : ∀ s ∈ rest, ∀ bs, hexDecode s = some bs → bs.length = 32 :=
      fun s hs => hlen s (List.mem_cons_of_mem _ hs)
    cases hda : hexDecode a with
    | none =>
      rcases List.mem_cons.mp hs with rfl | hs'
      · rw [hda] at hdec; cases hdec
      · simp only [check_sigs, hda]
        exact ih hrest ⟨s, hs', hdec⟩
    | some bytes =>
      have h32 : bytes.length = 32 := hlen a (List.mem_cons_self a rest) bytes hda
      by_cases heq : bytes = expected
      · subst heq
        simp [check_sigs, hda, h32]
      · simp only [check_sigs, hda, if_pos h32, if_neg heq]
        rcases List.mem_cons.mp hs with rfl | hs'
        · rw [hda] at hdec; cases hdec; exact absurd rfl heq
        · exact ih hrest ⟨s, hs', hdec⟩

theorem mem_of_check_sigs_matched (expected : List Nat) (sigs : List Str)
    (h : check_sigs expected sigs = .matched) :
    ∃ s ∈ sigs, hexDecode s = some expected := by
  induction sigs with
  | nil => simp [check_sigs] at h
  | cons a rest ih =>
    cases hda : hexDecode a with
    | none =>
      simp only [check_sigs, hda] at h
      obtain ⟨s, hs, hd⟩ := ih h
      exact ⟨s, List.mem_cons_of_mem _ hs, hd⟩
    | some bytes =>
      simp only [check_sigs, hda] at h
      by_cases h32 : bytes.length = 32
      · rw [if_pos h32] at h
        by_cases heq : bytes = expected
        · exact ⟨a, List.mem_cons_self a rest, by rw [hda, heq]⟩
        · rw [if_neg heq] at h
          obtain ⟨s, hs, hd⟩ := ih h
          exact ⟨s, List.mem_cons_of_mem _ hs, hd⟩
      · rw [if_neg h32] at h
        cases h

theorem check_sigs_nomatch_of_no_mem (expected : List Nat) (sigs : List Str)
    (hlen : ∀ s ∈ sigs, ∀ bs, hexDecode s = some bs → bs.length = 32)
    (hno : ∀ s ∈ sigs, hexDecode s ≠ some expected) :
    check_sigs expected sigs = .unmatched := by
  induction sigs with
  | nil => rfl
  | cons a rest ih =>
    have hrest : ∀ s ∈ rest, ∀ bs, hexDecode s = some bs → bs.length = 32 :=
      fun s hs => hlen s (List.mem_cons_of_mem _ hs)
    have hnorest : ∀ s ∈ rest, hexDecode s ≠ some expected :=
      fun s hs => hno s (List.mem_cons_of_mem _ hs)
    cases hda : hexDecode a with
    | none =>
      simp only [check_sigs, hda]
      exact ih hrest hnorest
    | some bytes =>
      have h32 : bytes.length = 32 := hlen a (List.mem_cons_self a rest) bytes hda
      have heq : bytes ≠ expected := by
        intro h
        exact hno a (List.mem_cons_self a rest) (by rw [hda, h])
      simp only [check_sigs, hda, if_pos h32, if_neg heq]
      exact ih hrest hnorest

/-- C3.  The spec's acceptance condition, amended: provided every `v1`
value that hex-decodes yields exactly 32 bytes (otherwise the comparison
panics, see the counterexample), the verifier accepts iff the header is
present, carries a `t` field, and some supplied `v1` hex-decodes to
`HMAC(secret, t ++ "." ++ body)`; it rejects with an authentication error
when the header is absent, `t` is absent, or no `v1` matches (which covers
all `v1` values failing to hex-decode). -/
theorem C3_verify_accept_iff (mac : Str → Str → List Nat) (secret : Str)
    (hdr body ts : Str)
    (hlen : ∀ s ∈ (parseHeader hdr).2, ∀ bs, hexDecode s = some bs → bs.length = 32)
    (hts : (parseHeader hdr).1 = some ts) :
    (verify mac secret (some hdr) body = .accepted ts body ↔
      ∃ s ∈ (parseHeader hdr).2,
        hexDecode s = some (mac secret (ts ++ '.' :: body))) ∧
    ((¬ ∃ s ∈ (parseHeader hdr).2,
        hexDecode s = some (mac secret (ts ++ '.' :: body))) →
      verify mac secret (some hdr) body = .rejected "Signature validation failed") ∧
    verify mac secret none body = .rejected "Missing Signature" ∧
    (∀ h2, (parseHeader h2).1 = none →
      verify mac secret (some h2) body = .rejected "Missing timestamp") := by
  have hkey : verify mac secret (some hdr) body =
      match check_sigs (mac secret (ts ++ '.' :: body)) (parseHeader hdr).2 with
      | .matched => .accepted ts body
      | .unmatched => .rejected "Signature validation failed"
      | .panicked => .panicked := by
    rw [verify, hts]
  refine ⟨⟨fun hacc => ?_, fun hmem => ?_⟩, fun hno => ?_, rfl, fun h2 h2none => ?_⟩
  · rw [hkey] at hacc
    cases hcs : check_sigs (mac secret (ts ++ '.' :: body)) (parseHeader hdr).2 with
    | matched => exact mem_of_check_sigs_matched _ _ hcs
    | unmatched => rw [hcs] at hacc; cases hacc
    | panicked => rw [hcs] at hacc; cases hacc
  · rw [hkey, check_sigs_matched_of_mem _ _ hlen hmem]
  · rw [hkey, check_sigs_nomatch_of_no_mem _ _ hlen (by push_neg at hno; exact hno)]
  · rw [verify, h2none]

/-- C3 witness: a concrete accepting run of the verifier, obtained from
`C3_verify_accept_iff` at `mac0` and a header whose `v1` is the hex of
`mac0`'s digest. -/
theorem C3_witness :
    verify mac0 "whsec".data (some goodHeader) "b".data =
      .accepted "5".data "b".data := by
  have hlen : ∀ s ∈ (parseHeader goodHeader).2, ∀ bs,
      hexDecode s = some bs → bs.length = 32 := by
    have hsigs : (parseHeader goodHeader).2 = [zeros64] := by decide
    rw [hsigs]
    intro s hs bs hb
    rw [List.mem_singleton] at hs
    subst hs
    have hz : hexDecode zeros64 = some (List.replicate 32 0) := by decide
    rw [hz] at hb
    cases hb
    decide
  exact (C3_verify_accept_iff mac0 "whsec".data goodHeader "b".data "5".data hlen
    (by decide)).1.mpr ⟨zeros64, by decide, by decide⟩

/-- A header whose first `v1` is valid hex of the wrong length and whose
second `v1` is the hex of `mac0`'s digest. -/
def cexHeader : Str := "t=5,v1=ab,v1=".data ++ zeros64

/-- C3 counterexample: a supplied `v1` hex-decodes to the expected HMAC,
yet the verifier neither accepts nor rejects — it panics on the earlier
2-character `v1` (`GenericArray::clone_from_slice` on 1 byte), refuting
the claim's "accepts iff" and its "fails with an authentication error"
clause at this input. -/
theorem C3_counterexample :
    (∃ s ∈ (parseHeader cexHeader).2,
      hexDecode s = some (mac0 "whsec".data ("5".data ++ '.' :: "b".data))) ∧
    verify mac0 "whsec".data (some cexHeader) "b".data = .panicked := by
  exact ⟨⟨zeros64, by decide, by decide⟩, by decide⟩

/-- C9: the verifier is not total.  `"ab"` is valid hex but decodes to a
single byte, so `GenericArray::<u8, U32>::clone_from_slice` panics before
any comparison; the request produces no `500` response (no response at
all), and this happens even though the loop would otherwise just have
rejected the delivery. -/
theorem C9_clone_from_slice_panics :
    hexDecode "ab".data = some [171] ∧
    verify mac0 "whsec".data (some "t=5,v1=ab".data) "b".data = .panicked ∧
    handle_request mac0 (fun _ => none) (fun _ => true) "whsec".data 5
      (some "t=5,v1=ab".data) "b".data = .panicked := by
  exact ⟨by decide, by decide, by decide⟩

/-- A header whose timestamp is `2^63` — parseable as a `u64` but
unrepresentable as a `SystemTime` — and whose `v1` is the hex of `mac0`'s
digest. -/
def hugeTsHeader : Str := "t=9223372036854775808,v1=".data ++ zeros64

/-- C7 counterexample: a request whose signature is confirmed valid for
timestamp `2^63`, which parses as a `u64` and is more than 300 seconds
from the current time (1000) — yet the program panics in
`UNIX_EPOCH + Duration::from_secs(t)` before the staleness comparison,
producing no authentication-error rejection, refuting the claim's "for
every … timestamp … rejects with an authentication error". -/
theorem C7_counterexample :
    verify mac0 "whsec".data (some hugeTsHeader) "b".data =
      .accepted "9223372036854775808".data "b".data ∧
    parseU64 "9223372036854775808".data = some (2 ^ 63) ∧
    absDiff 1000 (2 ^ 63) > MAX_TIME_DIFF ∧
    processDelivery mac0 (fun _ => none) "whsec".data 1000 (some hugeTsHeader)
      "b".data = .panicked :=
  ⟨by decide, by decide, by decide, by decide⟩

/-- C7, amended: when the signature has been confirmed valid and the
timestamp parses to a `u64` below `2^63` (so that the `SystemTime`
conversion is representable), a skew of more than `MAX_TIME_DIFF = 300`
seconds in either direction is rejected with the staleness error; a
confirmed-valid timestamp of `2^63` or above panics in the conversion
instead (see the counterexample); and the staleness check runs only after
signature confirmation — any signature rejection is reported as such, with
the timestamp never examined. -/
theorem C7_stale_reject (mac : Str → Str → List Nat)
    (parseEvent : Str → Option EventItem) (secret : Str) (now : Nat)
    (header : Option Str) (body ts b : Str) (t : Nat)
    (hsig : verify mac secret header body = .accepted ts b)
    (ht : parseU64 ts = some t)
    (hrep : t < 2 ^ 63)
    (hskew : absDiff now t > MAX_TIME_DIFF) :
    processDelivery mac parseEvent secret now header body =
      .err "Timestamp is too far from current time" ∧
    (∀ hdr2 body2 m, verify mac secret hdr2 body2 = .rejected m →
      processDelivery mac parseEvent secret now hdr2 body2 = .err m) ∧
    (∀ hdr2 body2 ts2 b2 t2, verify mac secret hdr2 body2 = .accepted ts2 b2 →
      parseU64 ts2 = some t2 → 2 ^ 63 ≤ t2 →
      processDelivery mac parseEvent secret now hdr2 body2 = .panicked) := by
  refine ⟨?_, ?_, ?_⟩
  · unfold processDelivery
    simp only [hsig]
    unfold staleness_and_parse
    simp only [ht]
    rw [if_neg (by omega), if_pos hskew]
  · intro hdr2 body2 m hrej
    unfold processDelivery
    simp only [hrej]
  · intro hdr2 body2 ts2 b2 t2 hsig2 ht2 hbig
    unfold processDelivery
    simp only [hsig2]
    unfold staleness_and_parse
    simp only [ht2]
    rw [if_pos hbig]

/-- C7 witness: a correctly signed delivery whose timestamp (5, a
representable `u64`) is 995 seconds behind the current time (1000) is
rejected as stale. -/
theorem C7_witness :
    processDelivery mac0 (fun _ => none) "whsec".data 1000 (some goodHeader)
      "b".data = .err "Timestamp is too far from current time" :=
  (C7_stale_reject mac0 (fun _ => none) "whsec".data 1000 (some goodHeader)
    "b".data "5".data "b".data 5 (by decide) (by decide) (by decide)
    (by decide)).1

/-- C8: the HTTP response is `200` with an empty body iff verification and
body parsing succeed, `500 Internal Server Error` on any verification or
parse failure, and the response does not depend on the outcome of the
spawned event processing (panicking inputs produce no response and no
acceptance, so the equivalence covers them vacuously). -/
theorem C8_response_mapping (mac : Str → Str → List Nat)
    (parseEvent : Str → Option EventItem) (o : EventItem → Bool)
    (secret : Str) (now : Nat) (header : Option Str) (body : Str) :
    (respOf (handle_request mac parseEvent o secret now header body) =
        some ⟨200, ""⟩ ↔
      ∃ evt, processDelivery mac parseEvent secret now header body = .ok evt) ∧
    (∀ m, processDelivery mac parseEvent secret now header body = .err m →
      handle_request mac parseEvent o secret now header body =
        .resp ⟨500, "Internal Server Error"⟩ []) ∧
    (∀ o2, respOf (handle_request mac parseEvent o secret now header body) =
      respOf (handle_request mac parseEvent o2 secret now header body)) := by
  cases hp : processDelivery mac parseEvent secret now header body with
  | ok evt =>
    refine ⟨⟨fun _ => ⟨evt, rfl⟩, fun _ => ?_⟩, fun m hm => ?_, fun o2 => ?_⟩
    · unfold handle_request
      simp only [hp, respOf]
    · cases hm
    · unfold handle_request
      simp only [hp, respOf]
  | err m =>
    refine ⟨⟨fun h200 => ?_, fun hok => ?_⟩, fun m2 hm2 => ?_, fun o2 => ?_⟩
    · have h500 : respOf (handle_request mac parseEvent o secret now header body) =
          some ⟨500, "Internal Server Error"⟩ := by
        unfold handle_request
        simp only [hp, respOf]
      rw [h500] at h200
      exact absurd h200 (by decide)
    · obtain ⟨evt, hevt⟩ := hok
      cases hevt
    · unfold handle_request
      simp only [hp]
    · unfold handle_request
      simp only [hp, respOf]
  | panicked =>
    refine ⟨⟨fun h200 => ?_, fun hok => ?_⟩, fun m2 hm2 => ?_, fun o2 => ?_⟩
    · have hnone : respOf (handle_request mac parseEvent o secret now header body) =
          none := by
        unfold handle_request
        simp only [hp, respOf]
      rw [hnone] at h200
      exact absurd h200 (by decide)
    · obtain ⟨evt, hevt⟩ := hok
      cases hevt
    · cases hm2
    · unfold handle_request
      simp only [hp]

/-- C8 witness: a correctly signed, fresh, parseable delivery yields the
`200` empty response, via `C8_response_mapping` at concrete inputs. -/
theorem C8_witness :
    respOf (handle_request mac0 (fun _ => some ⟨1, "x"⟩) (fun _ => true)
      "whsec".data 5 (some goodHeader) "b".data) = some ⟨200, ""⟩ :=
  (C8_response_mapping mac0 (fun _ => some ⟨1, "x"⟩) (fun _ => true)
    "whsec".data 5 (some goodHeader) "b".data).1.mpr ⟨⟨1, "x"⟩, by decide⟩

/-! ## Lemmas about the activation transaction -/

theorem flip_filter_nil (sid : String) (l : List CheckoutSessionRow) :
    (l.map (fun r =>
      if r.stripe_id = sid ∧ r.completed = false then { r with completed := true }
      else r)).filter
        (fun r => r.stripe_id = sid ∧ r.completed = false) = [] := by
  rw [List.filter_eq_nil_iff]
  intro r hr
  obtain ⟨r0, hr0, rfl⟩ := List.mem_map.mp hr
  by_cases h : r0.stripe_id = sid ∧ r0.completed = false
  · rw [if_pos h]
    simp
  · rw [if_neg h]
    simpa using h

theorem matchingRows_post_success (db : DBState) (sid : String)
    (subs : List UserSubscriptionRow) :
    matchingRows { applyUpdate db sid with user_subscriptions := subs } sid = [] := by
  unfold matchingRows applyUpdate
  exact flip_filter_nil sid db.sessions

theorem flip_forall2 (sid : String) (l : List CheckoutSessionRow) :
    List.Forall₂
      (fun a b => b = a ∨ (a.completed = false ∧ b = { a with completed := true }))
      l
      (l.map (fun r =>
        if r.stripe_id = sid ∧ r.completed = false then { r with completed := true }
        else r)) := by
  induction l with
  | nil => exact List.Forall₂.nil
  | cons a rest ih =>
    simp only [List.map_cons]
    refine List.Forall₂.cons ?_ ih
    by_cases h : a.stripe_id = sid ∧ a.completed = false
    · rw [if_pos h]; exact Or.inr ⟨h.2, rfl⟩
    · rw [if_neg h]; exact Or.inl rfl

theorem mem_matchingRows_completed_false (db : DBState) (sid : String)
    (r : CheckoutSessionRow) (h : r ∈ matchingRows db sid) :
    r.completed = false := by
  unfold matchingRows at h
  have := (List.mem_filter.mp h).2
  simp only [decide_eq_true_eq] at this
  exact this.2

theorem head?_mem_of_some {α : Type} (l : List α) (a : α) (h : l.head? = some a) :
    a ∈ l := by
  cases l with
  | nil => cases h
  | cons x xs =>
    simp only [List.head?_cons, Option.some.injEq] at h
    subst h
    exact List.mem_cons_self x xs

theorem run_tx_success (sid : String) (sub : Subscription) (sub_id : String)
    (db : DBState) (row : CheckoutSessionRow)
    (hrow : (matchingRows db sid).head? = some row) :
    run_checkout_tx noFault sid sub sub_id db =
      (.ok (),
        { applyUpdate db sid with
          user_subscriptions := db.user_subscriptions ++ [insertedRow sub sub_id row] },
        [.prepare, .beginTx, .updateSession, .insertSub, .commitTx]) := by
  unfold run_checkout_tx
  simp [noFault, hrow]

theorem run_tx_miss (sid : String) (sub : Subscription) (sub_id : String)
    (db : DBState) (hmiss : matchingRows db sid = []) :
    run_checkout_tx noFault sid sub sub_id db =
      (.error "Couldn't find the session", db,
        [.prepare, .beginTx, .updateSession, .rollbackTx]) := by
  unfold run_checkout_tx
  simp [noFault, hmiss]

theorem run_attempts_miss (sid : String) (sub : Subscription) (sub_id : String) :
    ∀ (n : Nat) (db : DBState), matchingRows db sid = [] →
      run_attempts sid sub sub_id n db =
        (List.replicate n (.error "Couldn't find the session"), db) := by
  intro n
  induction n with
  | zero => intro db _; rfl
  | succ n ih =>
    intro db h
    unfold run_attempts
    rw [run_tx_miss sid sub sub_id db h]
    simp [ih db h, List.replicate_succ]

/-- C1: serializing any number of concurrent duplicate activation attempts
for the same checkout session (the row lock taken by the conditional
`UPDATE … WHERE completed=FALSE` forces conflicting transactions into a
serial order, with the loser re-evaluating the predicate — no other
locking is involved), exactly the first attempt's UPDATE affects the row
and inserts a user-subscription row; every other attempt gets zero rows,
aborts with the IdempotencyMiss error, and leaves storage unchanged. -/
theorem C1_exactly_one_activation (n : Nat) (sid : String) (sub : Subscription)
    (sub_id : String) (db : DBState) (row : CheckoutSessionRow)
    (hrow : (matchingRows db sid).head? = some row) :
    run_attempts sid sub sub_id (n + 1) db =
      (.ok () :: List.replicate n (.error "Couldn't find the session"),
        { applyUpdate db sid with
          user_subscriptions :=
            db.user_subscriptions ++ [insertedRow sub sub_id row] }) := by
  have hsucc := run_tx_success sid sub sub_id db row hrow
  have hnil := matchingRows_post_success db sid
    (db.user_subscriptions ++ [insertedRow sub sub_id row])
  have hrest := run_attempts_miss sid sub sub_id n _ hnil
  unfold run_attempts
  rw [hsucc]
  simp [hrest]

/-- The initial storage for the concrete activation runs: one uncompleted
checkout session row and no user subscriptions. -/
def dbW : DBState := ⟨[⟨"cs_1", false, 7, 3⟩], []⟩

def rowW : CheckoutSessionRow := ⟨"cs_1", false, 7, 3⟩

/-- C1 witness: two duplicate attempts on a concrete store — the first
succeeds, the second reports the IdempotencyMiss. -/
theorem C1_witness :
    run_attempts "cs_1" ⟨10, 20⟩ "sub_1" 2 dbW =
      (Except.ok () :: List.replicate 1 (.error "Couldn't find the session"),
        { applyUpdate dbW "cs_1" with
          user_subscriptions :=
            dbW.user_subscriptions ++ [insertedRow ⟨10, 20⟩ "sub_1" rowW] }) :=
  C1_exactly_one_activation 1 "cs_1" ⟨10, 20⟩ "sub_1" dbW rowW (by decide)

/-- C2: for every failure inside the transaction's steps 1–3 — a failing
UPDATE, the zero-rows IdempotencyMiss, or a failing INSERT — the command
trace ends with an explicit ROLLBACK, storage is unchanged, and the
propagated error is the originating one; and because the code discards the
ROLLBACK's own result (`…ROLLBACK….then(|_| Err((err, conn)))`), a failing
ROLLBACK changes nothing about the outcome. -/
theorem C2_rollback_then_original_error (f : Fault) (sid : String)
    (sub : Subscription) (sub_id : String) (db : DBState)
    (hp : f.prepare_fails = false) (hb : f.begin_fails = false) :
    (f.update_fails = true →
      run_checkout_tx f sid sub sub_id db =
        (.error "Failed to query for session", db,
          [.prepare, .beginTx, .updateSession, .rollbackTx])) ∧
    (f.update_fails = false → matchingRows db sid = [] →
      run_checkout_tx f sid sub sub_id db =
        (.error "Couldn't find the session", db,
          [.prepare, .beginTx, .updateSession, .rollbackTx])) ∧
    (∀ row, f.update_fails = false → f.insert_fails = true →
      (matchingRows db sid).head? = some row →
      run_checkout_tx f sid sub sub_id db =
        (.error "Failed to add subscription", db,
          [.prepare, .beginTx, .updateSession, .insertSub, .rollbackTx])) ∧
    run_checkout_tx { f with rollback_fails := true } sid sub sub_id db =
      run_checkout_tx { f with rollback_fails := false } sid sub sub_id db := by
  refine ⟨fun hu => ?_, fun hu hmiss => ?_, fun row hu hi hrow => ?_, ?_⟩
  · unfold run_checkout_tx
    simp [hp, hb, hu]
  · unfold run_checkout_tx
    simp [hp, hb, hu, hmiss]
  · unfold run_checkout_tx
    simp [hp, hb, hu, hi, hrow]
  · cases f
    rfl

/-- C2 witness: a duplicate delivery against a store whose session row is
already completed — zero rows returned, ROLLBACK issued, original
IdempotencyMiss error propagated, storage untouched. -/
theorem C2_witness :
    run_checkout_tx noFault "cs_1" ⟨10, 20⟩ "sub_1" ⟨[], []⟩ =
      (.error "Couldn't find the session", (⟨[], []⟩ : DBState),
        [.prepare, .beginTx, .updateSession, .rollbackTx]) :=
  (C2_rollback_then_original_error noFault "cs_1" ⟨10, 20⟩ "sub_1" ⟨[], []⟩
    rfl rfl).2.1 rfl (by decide)

/-- C4: in every execution of the transaction, session rows change only by
flipping `completed` from `false` to `true` (never back, never any other
field); a user-subscription row is inserted iff the run succeeds, in which
case exactly the row built from the returned `(user_id, tier_id)` is
appended, the flipped row had `completed = false`, the predicate matches no
row afterwards, and on any failure storage is unchanged. -/
theorem C4_flip_iff_insert (f : Fault) (sid : String) (sub : Subscription)
    (sub_id : String) (db : DBState) :
    List.Forall₂
      (fun a b => b = a ∨ (a.completed = false ∧ b = { a with completed := true }))
      db.sessions (run_checkout_tx f sid sub sub_id db).2.1.sessions ∧
    ((run_checkout_tx f sid sub sub_id db).1 = .ok () ↔
      (run_checkout_tx f sid sub sub_id db).2.1.user_subscriptions ≠
        db.user_subscriptions) ∧
    ((run_checkout_tx f sid sub sub_id db).1 = .ok () →
      ∃ r0, (matchingRows db sid).head? = some r0 ∧ r0.completed = false ∧
        (run_checkout_tx f sid sub sub_id db).2.1.user_subscriptions =
          db.user_subscriptions ++ [insertedRow sub sub_id r0] ∧
        matchingRows (run_checkout_tx f sid sub sub_id db).2.1 sid = []) ∧
    ((run_checkout_tx f sid sub sub_id db).1 ≠ .ok () →
      (run_checkout_tx f sid sub sub_id db).2.1 = db) := by
  have hrefl : List.Forall₂
      (fun a b => b = a ∨ (a.completed = false ∧ b = { a with completed := true }))
      db.sessions db.sessions :=
    List.forall₂_same.mpr (fun a _ => Or.inl rfl)
  by_cases hp : f.prepare_fails = true
  · unfold run_checkout_tx
    simp [hp, hrefl]
  · by_cases hb : f.begin_fails = true
    · unfold run_checkout_tx
      simp [hp, hb, hrefl]
    · by_cases hu : f.update_fails = true
      · unfold run_checkout_tx
        simp [hp, hb, hu, hrefl]
      · cases hrow : (matchingRows db sid).head? with
        | none =>
          unfold run_checkout_tx
          simp [hp, hb, hu, hrow, hrefl]
        | some row =>
          by_cases hi : f.insert_fails = true
          · unfold run_checkout_tx
            simp [hp, hb, hu, hi, hrow, hrefl]
          · by_cases hc : f.commit_fails = true
            · unfold run_checkout_tx
              simp [hp, hb, hu, hi, hc, hrow, hrefl]
            · have hrun : run_checkout_tx f sid sub sub_id db =
                  (.ok (),
                    { applyUpdate db sid with
                      user_subscriptions :=
                        db.user_subscriptions ++ [insertedRow sub sub_id row] },
                    [.prepare, .beginTx, .updateSession, .insertSub, .commitTx]) := by
                unfold run_checkout_tx
                simp [hp, hb, hu, hi, hc, hrow]
              rw [hrun]
              have hne : db.user_subscriptions ++ [insertedRow sub sub_id row] ≠
                  db.user_subscriptions := by
                intro hcontra
                have := congrArg List.length hcontra
                simp at this
              refine ⟨?_, ⟨fun _ => hne, fun _ => rfl⟩, fun _ => ?_, fun hno => absurd rfl hno⟩
              · exact flip_forall2 sid db.sessions
              · refine ⟨row, rfl, ?_, rfl, matchingRows_post_success db sid _⟩
                exact mem_matchingRows_completed_false db sid row
                  (head?_mem_of_some _ row hrow)

/-- C4 witness: the concrete successful activation run, via
`C4_flip_iff_insert` with the success hypothesis discharged at the
concrete store. -/
theorem C4_witness :
    ∃ r0, (matchingRows dbW "cs_1").head? = some r0 ∧ r0.completed = false ∧
      (run_checkout_tx noFault "cs_1" ⟨10, 20⟩ "sub_1" dbW).2.1.user_subscriptions =
        dbW.user_subscriptions ++ [insertedRow ⟨10, 20⟩ "sub_1" r0] ∧
      matchingRows (run_checkout_tx noFault "cs_1" ⟨10, 20⟩ "sub_1" dbW).2.1 "cs_1" = [] :=
  (C4_flip_iff_insert noFault "cs_1" ⟨10, 20⟩ "sub_1" dbW).2.2.1 rfl

/-! ## Lemmas about the poll cursor -/

theorem batchMax_le : ∀ (batch : List EventItem) (m : Nat),
    batchMax batch = some m → ∀ e ∈ batch, e.created ≤ m := by
  intro batch
  induction batch with
  | nil => intro m hm; cases hm
  | cons a rest ih =>
    intro m hm e he
    rw [batchMax] at hm
    cases hr : batchMax rest with
    | none =>
      rw [hr] at hm
      cases hm
      rcases List.mem_cons.mp he with rfl | he'
      · exact le_refl _
      · cases rest with
        | nil => cases he'
        | cons b bs =>
          rw [batchMax] at hr
          cases hbs : batchMax bs <;> rw [hbs] at hr <;> cases hr
    | some mr =>
      rw [hr] at hm
      cases hm
      rcases List.mem_cons.mp he with rfl | he'
      · exact le_max_left _ _
      · exact le_trans (ih mr hr e he') (le_max_right _ _)

theorem batchMax_attained : ∀ (batch : List EventItem) (m : Nat),
    batchMax batch = some m → ∃ e ∈ batch, e.created = m := by
  intro batch
  induction batch with
  | nil => intro m hm; cases hm
  | cons a rest ih =>
    intro m hm
    rw [batchMax] at hm
    cases hr : batchMax rest with
    | none =>
      rw [hr] at hm
      cases hm
      exact ⟨a, List.mem_cons_self a rest, rfl⟩
    | some mr =>
      rw [hr] at hm
      cases hm
      rcases Nat.le_total a.created mr with hle | hle
      · obtain ⟨e, he, hem⟩ := ih mr hr
        exact ⟨e, List.mem_cons_of_mem _ he, hem.trans (Nat.max_eq_right hle).symm⟩
      · exact ⟨a, List.mem_cons_self a rest, (Nat.max_eq_left hle).symm⟩

theorem poll_step_mono (t : Nat) (r : Option (List EventItem))
    (h : honors (some t) r) :
    ∃ t', (poll_cycle (some t) r).1 = some t' ∧ t ≤ t' := by
  cases r with
  | none => exact ⟨t, rfl, le_refl t⟩
  | some batch =>
    cases hm : batchMax batch with
    | none => exact ⟨t, by simp [poll_cycle, hm], le_refl t⟩
    | some m =>
      refine ⟨m, by simp [poll_cycle, hm], ?_⟩
      obtain ⟨e, he, hem⟩ := batchMax_attained batch m hm
      have hlt := h batch rfl e he t rfl
      omega

theorem honors_trace_lt : ∀ (rs : List (Option (List EventItem))) (t : Nat),
    honorsTrace (some t) rs → ∀ x ∈ eventsOf rs, t < x.created := by
  intro rs
  induction rs with
  | nil => intro t _ x hx; cases hx
  | cons r rest ih =>
    intro t h x hx
    obtain ⟨h1, h2⟩ := h
    cases r with
    | none => exact ih t h2 x hx
    | some batch =>
      rcases List.mem_append.mp hx with hxb | hxr
      · exact h1 batch rfl x hxb t rfl
      · obtain ⟨t', ht', hle⟩ := poll_step_mono t (some batch) h1
        rw [ht'] at h2
        exact lt_of_le_of_lt hle (ih t' h2 x hxr)

theorem run_poll_optMax : ∀ (rs : List (Option (List EventItem))) (c : Option Nat),
    honorsTrace c rs → run_poll c rs = optMax c (observedMax rs) := by
  intro rs
  induction rs with
  | nil => intro c _; cases c <;> rfl
  | cons r rest ih =>
    intro c h
    obtain ⟨h1, h2⟩ := h
    cases r with
    | none => exact ih c h2
    | some batch =>
      cases hm : batchMax batch with
      | none =>
        have hcyc : (poll_cycle c (some batch)).1 = c := by
          simp [poll_cycle, hm]
        rw [run_poll, hcyc]
        rw [hcyc] at h2
        have hobs : observedMax (some batch :: rest) = observedMax rest := by
          simp [observedMax, hm, optMax]
        rw [hobs]
        exact ih c h2
      | some m =>
        have hcyc : (poll_cycle c (some batch)).1 = some m := by
          cases c <;> simp [poll_cycle, hm]
        rw [run_poll, hcyc]
        rw [hcyc] at h2
        rw [ih (some m) h2]
        cases c with
        | none =>
          simp [observedMax, hm, optMax]
        | some t =>
          obtain ⟨e, he, hem⟩ := batchMax_attained batch m hm
          have hlt : t < e.created := h1 batch rfl e he t rfl
          cases hobs : observedMax rest with
          | none => simp [observedMax, hm, hobs, optMax]; omega
          | some x => simp [observedMax, hm, hobs, optMax]; omega

/-- C5: one poll cycle.  With the cursor unset and a non-empty batch, the
cursor becomes the batch's maximum `created` and nothing is dispatched;
with the cursor set, the cursor advances the same way and every batch item
is dispatched; an empty batch (or a failed fetch) leaves the cursor
unchanged and dispatches nothing. -/
theorem C5_poll_cycle_cases (c : Nat) (cursor : Option Nat)
    (batch : List EventItem) (m : Nat) (hm : batchMax batch = some m) :
    poll_cycle none (some batch) = (some m, []) ∧
    poll_cycle (some c) (some batch) = (some m, batch) ∧
    poll_cycle cursor (some []) = (cursor, []) ∧
    poll_cycle cursor none = (cursor, []) :=
  ⟨by simp [poll_cycle, hm], by simp [poll_cycle, hm], rfl, rfl⟩

/-- C5 witness: a concrete cycle with a set cursor dispatching its batch. -/
theorem C5_witness :
    poll_cycle (some 3) (some [⟨5, "e"⟩]) = (some 5, [⟨5, "e"⟩]) :=
  (C5_poll_cycle_cases 3 (some 3) [⟨5, "e"⟩] 5 rfl).2.1

/-- C6: the poll cursor is monotone non-decreasing across cycles whose
batches honor the `created > cursor` query filter, and starting unset it
ends equal to the maximum `created` value observed over all batches of the
trace. -/
theorem C6_cursor_monotone_equals_max :
    (∀ (t : Nat) (r : Option (List EventItem)), honors (some t) r →
      ∃ t', (poll_cycle (some t) r).1 = some t' ∧ t ≤ t') ∧
    (∀ rs, honorsTrace none rs → run_poll none rs = observedMax rs) := by
  refine ⟨poll_step_mono, fun rs h => ?_⟩
  rw [run_poll_optMax rs none h]
  cases observedMax rs <;> rfl

/-- C6 witness: a two-cycle trace — cold start on `created = 5`, then a
batch with `created = 7 > 5` — ends with the cursor at the observed
maximum. -/
theorem C6_witness :
    run_poll none [some [⟨5, "a"⟩], some [⟨7, "b"⟩]] =
      observedMax [some [⟨5, "a"⟩], some [⟨7, "b"⟩]] := by
  apply C6_cursor_monotone_equals_max.2
  refine ⟨?_, ?_, trivial⟩
  · intro batch hb e he t ht
    exact Option.noConfusion ht
  · intro batch hb e he t ht
    cases hb
    have ht5 : some (5 : Nat) = some t := ht
    cases ht5
    simp only [List.mem_singleton] at he
    subst he
    decide

/-- C10: once the cursor is set, a dispatched event's `created` is bounded
by the new cursor, which is computed independently of any processing
outcome; every event surfaced by a later filter-honoring poll is therefore
strictly newer, so a failed event is never re-surfaced or retried by the
poll channel. -/
theorem C10_failed_event_never_resurfaced (c : Nat)
    (r : Option (List EventItem)) (e : EventItem)
    (hdisp : e ∈ (poll_cycle (some c) r).2) :
    (∃ c', (poll_cycle (some c) r).1 = some c' ∧ e.created ≤ c' ∧
      ∀ rs, honorsTrace (some c') rs → ∀ x ∈ eventsOf rs,
        e.created < x.created) ∧
    (∀ o1 o2 : EventItem → Bool,
      (poll_cycle_spawn o1 (some c) r).1 = (poll_cycle_spawn o2 (some c) r).1) := by
  constructor
  · cases r with
    | none => exact absurd hdisp (List.not_mem_nil e)
    | some batch =>
      cases hm : batchMax batch with
      | none =>
        rw [show (poll_cycle (some c) (some batch)).2 = [] from by
          simp [poll_cycle, hm]] at hdisp
        exact absurd hdisp (List.not_mem_nil e)
      | some m =>
        have hdisp' : e ∈ batch := by
          rw [show (poll_cycle (some c) (some batch)).2 = batch from by
            simp [poll_cycle, hm]] at hdisp
          exact hdisp
        refine ⟨m, by simp [poll_cycle, hm], batchMax_le batch m hm e hdisp', ?_⟩
        intro rs hrs x hx
        have hgt := honors_trace_lt rs m hrs x hx
        have hle := batchMax_le batch m hm e hdisp'
        omega
  · intro o1 o2
    rfl

/-- C10 witness: the concrete dispatched event `created = 5` is covered by
the new cursor and excluded from all later filter-honoring batches. -/
theorem C10_witness :
    ∃ c', (poll_cycle (some 3) (some [⟨5, "e"⟩])).1 = some c' ∧
      (⟨5, "e"⟩ : EventItem).created ≤ c' ∧
      ∀ rs, honorsTrace (some c') rs → ∀ x ∈ eventsOf rs,
        (⟨5, "e"⟩ : EventItem).created < x.created :=
  (C10_failed_event_never_resurfaced 3 (some [⟨5, "e"⟩]) ⟨5, "e"⟩ (by decide)).1
